import Mathlib

/-
Verification of the Cognito K3s webhook (src/app.py) against its
natural-language specification.

The embedding below is a shallow model of app.py. JSON values decoded by
json.loads are modelled by the inductive type Json; the users table is a
list of UserRecord rows; the nondeterminism of the storage backend (whether
psycopg2.connect succeeds, whether the INSERT statement succeeds) is passed
in explicitly as booleans, and the values of uuid.uuid4() and
datetime.utcnow() are passed in as explicit parameters. Exceptions are
modelled with Except over an inductive PyExc mirroring the Python exception
values that the handlers can observe.
-/

/-- A JSON value as produced by json.loads. An object is its list of
key-value pairs (a Python dict, so keys are distinct); null models the
Python value None. -/
inductive Json where
  | null
  | bool (b : Bool)
  | num (n : Int)
  | str (s : String)
  | arr (xs : List Json)
  | obj (kvs : List (String × Json))

mutual

/-- Structural equality of JSON values (Python == on decoded values). -/
def Json.beq : Json → Json → Bool
  | .null, .null => true
  | .bool a, .bool b => a == b
  | .num a, .num b => a == b
  | .str a, .str b => a == b
  | .arr a, .arr b => Json.beqList a b
  | .obj a, .obj b => Json.beqKvs a b
  | _, _ => false

/-- Pointwise equality of JSON arrays. -/
def Json.beqList : List Json → List Json → Bool
  | [], [] => true
  | x :: xs, y :: ys => Json.beq x y && Json.beqList xs ys
  | _, _ => false

/-- Pointwise equality of JSON object entry lists. -/
def Json.beqKvs : List (String × Json) → List (String × Json) → Bool
  | [], [] => true
  | (k, v) :: xs, (l, w) :: ys => k == l && Json.beq v w && Json.beqKvs xs ys
  | _, _ => false

end

mutual

theorem Json.eq_of_beq : (a b : Json) → Json.beq a b = true → a = b
  | .null, b, h => by cases b <;> simp_all [Json.beq]
  | .bool x, b, h => by cases b <;> simp_all [Json.beq]
  | .num x, b, h => by cases b <;> simp_all [Json.beq]
  | .str x, b, h => by cases b <;> simp_all [Json.beq]
  | .arr xs, .arr ys, h => by
      simp only [Json.beq] at h
      exact congrArg Json.arr (Json.eqList_of_beq xs ys h)
  | .arr xs, .null, h => by simp [Json.beq] at h
  | .arr xs, .bool _, h => by simp [Json.beq] at h
  | .arr xs, .num _, h => by simp [Json.beq] at h
  | .arr xs, .str _, h => by simp [Json.beq] at h
  | .arr xs, .obj _, h => by simp [Json.beq] at h
  | .obj xs, .obj ys, h => by
      simp only [Json.beq] at h
      exact congrArg Json.obj (Json.eqKvs_of_beq xs ys h)
  | .obj xs, .null, h => by simp [Json.beq] at h
  | .obj xs, .bool _, h => by simp [Json.beq] at h
  | .obj xs, .num _, h => by simp [Json.beq] at h
  | .obj xs, .str _, h => by simp [Json.beq] at h
  | .obj xs, .arr _, h => by simp [Json.beq] at h

theorem Json.eqList_of_beq : (xs ys : List Json) → Json.beqList xs ys = true → xs = ys
  | [], [], _ => rfl
  | x :: xs, y :: ys, h => by
      simp only [Json.beqList, Bool.and_eq_true] at h
      rw [Json.eq_of_beq x y h.1, Json.eqList_of_beq xs ys h.2]
  | [], _ :: _, h => by simp [Json.beqList] at h
  | _ :: _, [], h => by simp [Json.beqList] at h

theorem Json.eqKvs_of_beq : (xs ys : List (String × Json)) → Json.beqKvs xs ys = true → xs = ys
  | [], [], _ => rfl
  | (k, v) :: xs, (l, w) :: ys, h => by
      simp only [Json.beqKvs, Bool.and_eq_true, beq_iff_eq] at h
      rw [h.1.1, Json.eq_of_beq v w h.1.2, Json.eqKvs_of_beq xs ys h.2]
  | [], _ :: _, h => by simp [Json.beqKvs] at h
  | _ :: _, [], h => by simp [Json.beqKvs] at h

end

mutual

theorem Json.beq_refl : (a : Json) → Json.beq a a = true
  | .null => rfl
  | .bool b => by simp [Json.beq]
  | .num n => by simp [Json.beq]
  | .str s => by simp [Json.beq]
  | .arr xs => by simpa [Json.beq] using Json.beqList_refl xs
  | .obj kvs => by simpa [Json.beq] using Json.beqKvs_refl kvs

theorem Json.beqList_refl : (xs : List Json) → Json.beqList xs xs = true
  | [] => rfl
  | x :: xs => by simp [Json.beqList, Json.beq_refl x, Json.beqList_refl xs]

theorem Json.beqKvs_refl : (xs : List (String × Json)) → Json.beqKvs xs xs = true
  | [] => rfl
  | (k, v) :: xs => by simp [Json.beqKvs, Json.beq_refl v, Json.beqKvs_refl xs]

end

instance : DecidableEq Json := fun a b =>
  if h : Json.beq a b = true then isTrue (Json.eq_of_beq a b h)
  else isFalse (fun he => h (he ▸ Json.beq_refl a))

/-- Python dict.get(key) with default None, on the entry list of a decoded
JSON object. -/
def jsonLookup : List (String × Json) → String → Option Json
  | [], _ => none
  | (k, v) :: rest, key => if k = key then some v else jsonLookup rest key

/-- Python dict.get(key, default) on the entry list of a decoded JSON
object. -/
def jsonGetD (kvs : List (String × Json)) (key : String) (dflt : Json) : Json :=
  (jsonLookup kvs key).getD dflt

/-- Python truthiness bool(x) of a decoded JSON value. -/
def Json.truthy : Json → Bool
  | .null => false
  | .bool b => b
  | .num n => n != 0
  | .str s => s != ""
  | .arr xs => !xs.isEmpty
  | .obj kvs => !kvs.isEmpty

/-- Python equality test between a decoded JSON value and a string
constant; only a string value can compare equal to a string. -/
def Json.eqStr : Json → String → Bool
  | .str s, t => s == t
  | _, _ => false

/-- Python type name of a decoded JSON value, as it appears in
AttributeError messages. -/
def Json.pyTypeName : Json → String
  | .null => "NoneType"
  | .bool _ => "bool"
  | .num _ => "int"
  | .str _ => "str"
  | .arr _ => "list"
  | .obj _ => "dict"

/-- Message of the AttributeError raised when .get is called on a value
that is not a dict. -/
def noGetAttrMsg (j : Json) : String :=
  "\x27" ++ j.pyTypeName ++ "\x27 object has no attribute \x27get\x27"

/-- Configured accepted trigger source, TRIGGER_SOURCE at line 45 of
app.py (environment default). -/
def TRIGGER_SOURCE : String := "PostConfirmation_ConfirmSignUp"

/-- Configured default provider, DEFAULT_PROVIDER at line 44 of app.py
(environment default). -/
def DEFAULT_PROVIDER : String := "google"

/-- The Python exception values observable by the handlers of app.py. The
string of an HTTPException is rendered as status followed by detail, as
starlette renders it. -/
inductive PyExc where
  | httpException (status : Nat) (detail : String)
  | dbError (msg : String)
  | unicodeDecodeError (msg : String)
  | jsonDecodeError (msg : String)
  | attributeError (msg : String)
  | unboundLocalError (varName : String)
deriving DecidableEq

/-- Python str(e) for the exception values above. -/
def strOfExc : PyExc → String
  | .httpException status detail => toString status ++ ": " ++ detail
  | .dbError msg => msg
  | .unicodeDecodeError msg => msg
  | .jsonDecodeError msg => msg
  | .attributeError msg => msg
  | .unboundLocalError v =>
      "cannot access local variable \x27" ++ v ++ "\x27 where it is not associated with a value"

/-- A row of the users table, with the columns listed by the INSERT
statement at line 78 of app.py. Timestamps are abstracted to Nat ticks;
the values bound for cognito_user_id, email, name and picture_url are the
decoded JSON values the handler extracted. -/
structure UserRecord where
  id : String
  cognito_user_id : Json
  email : Json
  name : Json
  picture_url : Json
  provider : String
  created_at : Nat
  updated_at : Nat
  is_active : Bool
  onboarding_completed : Bool
  preferences : String
deriving DecidableEq

/-- Whether a request acquired a database connection and whether it closed
it again before returning. -/
structure ConnUsage where
  acquired : Bool
  released : Bool
deriving DecidableEq

/-- get_db_connection, lines 61-68 of app.py: psycopg2.connect either
succeeds or raises; on failure the function logs and raises
HTTPException(500, "Database connection failed"). The parameter connOk
models whether the backend accepts the connection. -/
def get_db_connection (connOk : Bool) : Except PyExc Unit :=
  if connOk then .ok () else .error (.httpException 500 "Database connection failed")

/-- The DO UPDATE SET assignment of lines 80-84 of app.py: refresh email,
name, picture_url and updated_at of an existing row. -/
def applyUpdate (email name picture_url : Json) (now : Nat) (r : UserRecord) : UserRecord :=
  { r with email := email, name := name, picture_url := picture_url, updated_at := now }

/-- The freshly inserted row of lines 90-102 of app.py: generated id, the
given attributes, the configured provider, both timestamps set to now,
is_active true, onboarding_completed false, empty preferences object. -/
def newUserRecord (user_id : String) (now : Nat)
    (cognito_user_id email name picture_url : Json) : UserRecord :=
  { id := user_id, cognito_user_id := cognito_user_id, email := email, name := name,
    picture_url := picture_url, provider := DEFAULT_PROVIDER, created_at := now,
    updated_at := now, is_active := true, onboarding_completed := false,
    preferences := "\x7b\x7d" }

/-- Effect on the users table of successfully executing the INSERT ... ON
CONFLICT (cognito_user_id) DO UPDATE statement of lines 77-102 of app.py:
if a row with the same cognito_user_id exists it is updated in place,
otherwise a new row is appended. -/
def executeInsert (db : List UserRecord) (user_id : String) (now : Nat)
    (cognito_user_id email name picture_url : Json) : List UserRecord :=
  if db.any fun r => r.cognito_user_id == cognito_user_id then
    db.map fun r =>
      if r.cognito_user_id == cognito_user_id then applyUpdate email name picture_url now r
      else r
  else
    db ++ [newUserRecord user_id now cognito_user_id email name picture_url]

/-- create_user_in_database, lines 70-116 of app.py. State and backend
nondeterminism are explicit: db is the table before the call, connOk and
execOk say whether connecting and executing the statement succeed,
dbErrMsg is the backend error text when the statement fails, user_id is
the value of str(uuid.uuid4()) at line 87 and now the value of
datetime.utcnow() at line 88. Returns the raised exception or the returned
user_id, together with the table after the call and the connection usage
of the call. When connecting fails, the except block at line 113 evaluates
the name conn, which was never assigned, so an UnboundLocalError replaces
the HTTPException raised by get_db_connection. When the statement fails,
the except block rolls back, closes the connection and raises
HTTPException(500, "Error creating user: " + str(e)). -/
def create_user_in_database (db : List UserRecord) (connOk execOk : Bool)
    (dbErrMsg user_id : String) (now : Nat)
    (cognito_user_id email name picture_url : Json) :
    Except PyExc String × List UserRecord × ConnUsage :=
  match get_db_connection connOk with
  | .error _ => (.error (.unboundLocalError "conn"), db, ⟨false, false⟩)
  | .ok () =>
      if execOk then
        (.ok user_id, executeInsert db user_id now cognito_user_id email name picture_url,
          ⟨true, true⟩)
      else
        (.error (.httpException 500 ("Error creating user: " ++ dbErrMsg)), db, ⟨true, true⟩)

/-- An HTTP outcome of an endpoint: a JSON value returned with status 200,
or an HTTPException with its status code and detail string. -/
inductive HttpResponse where
  | ok (body : Json)
  | error (status : Nat) (detail : String)
deriving DecidableEq

/-- health_check, lines 127-151 of app.py. probeOk models whether the
SELECT 1 round trip succeeds once a connection exists, probeErrMsg is the
error text when it fails, now is the timestamp. The except block at line
144 returns the unhealthy body without closing the connection that was
already acquired. -/
def health_check (connOk probeOk : Bool) (probeErrMsg : String) (now : Nat) :
    HttpResponse × ConnUsage :=
  match get_db_connection connOk with
  | .error e =>
      (.ok (.obj [("status", .str "unhealthy"), ("database", .str "disconnected"),
                  ("error", .str (strOfExc e)), ("timestamp", .num now)]),
        ⟨false, false⟩)
  | .ok () =>
      if probeOk then
        (.ok (.obj [("status", .str "healthy"), ("database", .str "connected"),
                    ("timestamp", .num now)]),
          ⟨true, true⟩)
      else
        (.ok (.obj [("status", .str "unhealthy"), ("database", .str "disconnected"),
                    ("error", .str probeErrMsg), ("timestamp", .num now)]),
          ⟨true, false⟩)

/-- The request body of the webhook after the two decoding steps of line
159 of app.py: bytes that fail body.decode with a UnicodeDecodeError,
UTF-8 text that json.loads rejects with a JSONDecodeError, or a decoded
JSON value. -/
inductive Body where
  | invalidUtf8 (msg : String)
  | invalidJson (msg : String)
  | json (j : Json)

/-- Everything the webhook endpoint produces: the HTTP response, the users
table afterwards, whether create_user_in_database was invoked, and the
connection usage of the request. -/
structure HandlerResult where
  response : HttpResponse
  db : List UserRecord
  storageCalled : Bool
  conn : ConnUsage
deriving DecidableEq

/-- The try block of cognito_post_confirmation, lines 156-191 of app.py:
either a returned dict or a raised exception, together with the table
state, whether create_user_in_database was called, and the connection
usage. Calling .get on a decoded value that is not a dict raises an
AttributeError. -/
def webhookTry (body : Body) (db : List UserRecord) (connOk execOk : Bool)
    (dbErrMsg user_id : String) (now : Nat) :
    Except PyExc Json × List UserRecord × Bool × ConnUsage :=
  match body with
  | .invalidUtf8 msg => (.error (.unicodeDecodeError msg), db, false, ⟨false, false⟩)
  | .invalidJson msg => (.error (.jsonDecodeError msg), db, false, ⟨false, false⟩)
  | .json event_data =>
    match event_data with
    | .obj kvs =>
      if !((jsonLookup kvs "triggerSource").getD .null).eqStr TRIGGER_SOURCE then
        (.ok (.obj [("statusCode", .num 200), ("body", .str "Event ignored")]),
          db, false, ⟨false, false⟩)
      else
        let cognito_user_id := jsonGetD kvs "userName" (.str "")
        match jsonGetD kvs "request" (.obj []) with
        | .obj requestKvs =>
          match jsonGetD requestKvs "userAttributes" (.obj []) with
          | .obj attrKvs =>
            let email := jsonGetD attrKvs "email" (.str "")
            let name := jsonGetD attrKvs "name" (.str "")
            let picture_url := jsonGetD attrKvs "picture" (.str "")
            if !email.truthy || !cognito_user_id.truthy then
              (.error (.httpException 400 "Missing required user data"),
                db, false, ⟨false, false⟩)
            else
              match create_user_in_database db connOk execOk dbErrMsg user_id now
                  cognito_user_id email name picture_url with
              | (.ok uid, db2, cu) =>
                  (.ok (.obj [("statusCode", .num 200),
                        ("body", .obj [("message", .str "User created successfully"),
                                       ("user_id", .str uid), ("email", email)])]),
                    db2, true, cu)
              | (.error e, db2, cu) => (.error e, db2, true, cu)
          | attrs =>
              (.error (.attributeError (noGetAttrMsg attrs)), db, false, ⟨false, false⟩)
        | requestVal =>
            (.error (.attributeError (noGetAttrMsg requestVal)), db, false, ⟨false, false⟩)
    | j => (.error (.attributeError (noGetAttrMsg j)), db, false, ⟨false, false⟩)

/-- cognito_post_confirmation, lines 153-199 of app.py: the try block
above followed by the two except clauses of lines 193-199. A
JSONDecodeError becomes HTTPException(400, "Invalid JSON"); every other
exception, raised HTTPException values included, is caught by the generic
except Exception clause and becomes HTTPException(500,
"Internal server error: " + str(e)). -/
def cognito_post_confirmation (body : Body) (db : List UserRecord) (connOk execOk : Bool)
    (dbErrMsg user_id : String) (now : Nat) : HandlerResult :=
  match webhookTry body db connOk execOk dbErrMsg user_id now with
  | (.ok response, db2, called, cu) => ⟨.ok response, db2, called, cu⟩
  | (.error (.jsonDecodeError _), db2, called, cu) =>
      ⟨.error 400 "Invalid JSON", db2, called, cu⟩
  | (.error e, db2, called, cu) =>
      ⟨.error 500 ("Internal server error: " ++ strOfExc e), db2, called, cu⟩

/-- Rows of the users table holding a given external identity. -/
def rowsFor (db : List UserRecord) (cuid : Json) : List UserRecord :=
  db.filter fun r => r.cognito_user_id == cuid

/-- Uniqueness constraint of the users table assumed by ON CONFLICT: at
most one row per external identity. -/
def DbInv (db : List UserRecord) : Prop :=
  ∀ c : Json, (rowsFor db c).length ≤ 1

/-- The varying inputs of one successful reconciliation of a fixed
external identity: attribute values, the uuid generated during the call,
and the timestamp of the call. -/
structure ReconcileCall where
  email : Json
  name : Json
  picture_url : Json
  user_id : String
  now : Nat
deriving DecidableEq

/-- The table after one successful reconciliation of cuid through
create_user_in_database. -/
def reconcileStep (cuid : Json) (db : List UserRecord) (c : ReconcileCall) :
    List UserRecord :=
  (create_user_in_database db true true "" c.user_id c.now
    cuid c.email c.name c.picture_url).2.1

/-- The table after a sequence of successful reconciliations of the same
external identity. -/
def runReconciles (cuid : Json) (db : List UserRecord) (calls : List ReconcileCall) :
    List UserRecord :=
  calls.foldl (reconcileStep cuid) db

/-- A well-formed PostConfirmation event, as in the end-to-end scenario of
the spec. -/
def sampleEventKvs : List (String × Json) :=
  [("version", .str "1"), ("triggerSource", .str TRIGGER_SOURCE), ("userName", .str "u1"),
   ("request", .obj [("userAttributes",
      .obj [("email", .str "a@b.com"), ("name", .str "A"),
            ("picture", .str "http://x/p.jpg")])]),
   ("response", .obj [])]

theorem cognito_user_id_applyUpdate (e n p : Json) (t : Nat) (r : UserRecord) :
    (applyUpdate e n p t r).cognito_user_id = r.cognito_user_id := rfl

theorem rowsFor_append (db1 db2 : List UserRecord) (c : Json) :
    rowsFor (db1 ++ db2) c = rowsFor db1 c ++ rowsFor db2 c := by
  simp [rowsFor, List.filter_append]

theorem rowsFor_map_upd (db : List UserRecord) (cuid e n p : Json) (t : Nat) (c : Json) :
    rowsFor (db.map fun r =>
        if r.cognito_user_id == cuid then applyUpdate e n p t r else r) c
      = (rowsFor db c).map fun r =>
          if r.cognito_user_id == cuid then applyUpdate e n p t r else r := by
  induction db with
  | nil => rfl
  | cons r db ih =>
      have hkey : ((if r.cognito_user_id == cuid then applyUpdate e n p t r else r).cognito_user_id == c)
          = (r.cognito_user_id == c) := by
        by_cases h : (r.cognito_user_id == cuid) = true <;> simp [h, applyUpdate]
      by_cases h2 : (r.cognito_user_id == c) = true
      · simp only [rowsFor, List.map_cons, List.filter_cons, hkey, h2, ite_true, if_pos]
        exact congrArg _ ih
      · have h2f : (r.cognito_user_id == c) = false := by
          cases hb : (r.cognito_user_id == c) <;> simp_all
        simp only [rowsFor, List.map_cons, List.filter_cons, hkey, h2f]
        exact ih

theorem rowsFor_eq_nil (db : List UserRecord) (cuid : Json)
    (h : (db.any fun r => r.cognito_user_id == cuid) = false) :
    rowsFor db cuid = [] := by
  simp only [List.any_eq_false] at h
  simp only [rowsFor, List.filter_eq_nil_iff]
  exact h

theorem rowsFor_singleton (db : List UserRecord) (cuid : Json) (hinv : DbInv db)
    (hex : (db.any fun r => r.cognito_user_id == cuid) = true) :
    ∃ r0, rowsFor db cuid = [r0] ∧ (r0.cognito_user_id == cuid) = true := by
  obtain ⟨r, hr, hrk⟩ := List.any_eq_true.mp hex
  have hmem : r ∈ rowsFor db cuid := List.mem_filter.mpr ⟨hr, hrk⟩
  have hlen := hinv cuid
  cases hrows : rowsFor db cuid with
  | nil => rw [hrows] at hmem; cases hmem
  | cons r0 tail =>
      cases tail with
      | nil =>
          refine ⟨r0, rfl, ?_⟩
          have hr0 : r0 ∈ rowsFor db cuid := by rw [hrows]; exact List.mem_cons_self r0 []
          exact (List.mem_filter.mp hr0).2
      | cons r1 rest => rw [hrows] at hlen; simp at hlen

theorem rowsFor_executeInsert_self (db : List UserRecord) (uid : String) (now : Nat)
    (cuid e n p : Json) (hinv : DbInv db) :
    ∃ r : UserRecord,
      rowsFor (executeInsert db uid now cuid e n p) cuid = [r] ∧
      r.email = e ∧ r.name = n ∧ r.picture_url = p ∧ r.updated_at = now := by
  by_cases hex : (db.any fun r => r.cognito_user_id == cuid) = true
  · obtain ⟨r0, hr0, hk⟩ := rowsFor_singleton db cuid hinv hex
    refine ⟨applyUpdate e n p now r0, ?_, rfl, rfl, rfl, rfl⟩
    rw [executeInsert, if_pos hex, rowsFor_map_upd, hr0]
    have hkeq : r0.cognito_user_id = cuid := by simpa using hk
    simp [hkeq]
  · refine ⟨newUserRecord uid now cuid e n p, ?_, rfl, rfl, rfl, rfl⟩
    rw [executeInsert, if_neg hex, rowsFor_append,
      rowsFor_eq_nil db cuid (by simpa using hex)]
    simp [rowsFor, newUserRecord]

theorem DbInv_executeInsert (db : List UserRecord) (uid : String) (now : Nat)
    (cuid e n p : Json) (hinv : DbInv db) :
    DbInv (executeInsert db uid now cuid e n p) := by
  intro c
  by_cases hex : (db.any fun r => r.cognito_user_id == cuid) = true
  · rw [executeInsert, if_pos hex, rowsFor_map_upd]
    simpa using hinv c
  · rw [executeInsert, if_neg hex, rowsFor_append]
    by_cases hc : cuid = c
    · subst hc
      rw [rowsFor_eq_nil db cuid (by simpa using hex)]
      simp [rowsFor, newUserRecord]
    · have hnew : rowsFor [newUserRecord uid now cuid e n p] c = [] := by
        simp [rowsFor, newUserRecord, hc]
      rw [hnew]
      simpa using hinv c

theorem reconcileStep_eq (cuid : Json) (db : List UserRecord) (c : ReconcileCall) :
    reconcileStep cuid db c
      = executeInsert db c.user_id c.now cuid c.email c.name c.picture_url := rfl

theorem DbInv_runReconciles (cuid : Json) (calls : List ReconcileCall) :
    ∀ db : List UserRecord, DbInv db → DbInv (runReconciles cuid db calls) := by
  induction calls with
  | nil => intro db h; exact h
  | cons c rest ih =>
      intro db h
      have hstep : DbInv (reconcileStep cuid db c) := by
        rw [reconcileStep_eq]
        exact DbInv_executeInsert db c.user_id c.now cuid c.email c.name c.picture_url h
      simpa [runReconciles, List.foldl_cons] using ih (reconcileStep cuid db c) hstep

theorem eqStr_getD_false (g : Option Json) (t : String) (h : g ≠ some (.str t)) :
    (g.getD .null).eqStr t = false := by
  cases g with
  | none => rfl
  | some j => cases j <;> simp_all [Json.eqStr, Option.getD]

theorem ignored_of_eqStr_false (kvs : List (String × Json)) (db : List UserRecord)
    (connOk execOk : Bool) (dbErrMsg uid : String) (now : Nat)
    (h : ((jsonLookup kvs "triggerSource").getD .null).eqStr TRIGGER_SOURCE = false) :
    cognito_post_confirmation (.json (.obj kvs)) db connOk execOk dbErrMsg uid now
      = ⟨.ok (.obj [("statusCode", .num 200), ("body", .str "Event ignored")]),
         db, false, ⟨false, false⟩⟩ := by
  have htry : webhookTry (.json (.obj kvs)) db connOk execOk dbErrMsg uid now
      = (.ok (.obj [("statusCode", .num 200), ("body", .str "Event ignored")]),
         db, false, ⟨false, false⟩) := by
    rw [webhookTry, h]
    rfl
  rw [cognito_post_confirmation, htry]

/-- C1 (amended): on the update path the stored row keeps its original id,
but create_user_in_database returns the uuid freshly generated during the
call; since a fresh uuid differs from every stored id, the returned
user_id is not the original id of the record, and sending the same
payload twice yields two different user_id values. -/
theorem C1_update_returns_fresh_id (db : List UserRecord) (uid : String) (now : Nat)
    (cuid e n p : Json)
    (hex : (db.any fun r => r.cognito_user_id == cuid) = true)
    (hfresh : ∀ r ∈ db, r.id ≠ uid) :
    (create_user_in_database db true true "" uid now cuid e n p).1 = Except.ok uid ∧
    ((create_user_in_database db true true "" uid now cuid e n p).2.1).map UserRecord.id
        = db.map UserRecord.id ∧
    ∀ r ∈ (create_user_in_database db true true "" uid now cuid e n p).2.1, r.id ≠ uid := by
  have hstep : (create_user_in_database db true true "" uid now cuid e n p).2.1
      = db.map fun r => if r.cognito_user_id == cuid then applyUpdate e n p now r else r := by
    show executeInsert db uid now cuid e n p = _
    rw [executeInsert, if_pos hex]
  refine ⟨rfl, ?_, ?_⟩
  · rw [hstep, List.map_map]
    apply List.map_congr_left
    intro r hr
    by_cases h : r.cognito_user_id = cuid <;> simp [h, applyUpdate]
  · rw [hstep]
    intro r hr
    obtain ⟨r0, hr0, hfr⟩ := List.mem_map.mp hr
    subst hfr
    by_cases h : r0.cognito_user_id = cuid <;>
      simp [h, applyUpdate, hfresh r0 hr0]

/-- C1 counterexample: starting from an empty table, the same payload for
identity u1 is reconciled twice, with uuid-1 generated during the first
call and uuid-2 during the second. The first response echoes uuid-1, the
second echoes uuid-2, the stored row still has id uuid-1, and uuid-2 is
not uuid-1 — so the value returned on the update path is a newly
generated identifier, not the original id, contradicting the claim. -/
theorem C1_counterexample :
    (create_user_in_database [] true true "" "uuid-1" 0
        (.str "u1") (.str "a@b.com") (.str "A") (.str "p")).1 = Except.ok "uuid-1" ∧
    (create_user_in_database
        (create_user_in_database [] true true "" "uuid-1" 0
          (.str "u1") (.str "a@b.com") (.str "A") (.str "p")).2.1
        true true "" "uuid-2" 1 (.str "u1") (.str "a@b.com") (.str "A") (.str "p")).1
      = Except.ok "uuid-2" ∧
    ((create_user_in_database
        (create_user_in_database [] true true "" "uuid-1" 0
          (.str "u1") (.str "a@b.com") (.str "A") (.str "p")).2.1
        true true "" "uuid-2" 1 (.str "u1") (.str "a@b.com") (.str "A") (.str "p")).2.1).map
        UserRecord.id = ["uuid-1"] ∧
    ("uuid-2" : String) ≠ "uuid-1" :=
  ⟨rfl, rfl, rfl, by decide⟩

/-- C1 witness: the amended theorem applied to a one-row table for
identity u1 whose stored id is uuid-1, reconciled again with fresh uuid
uuid-2. -/
theorem C1_witness :
    (([newUserRecord "uuid-1" 0 (.str "u1") (.str "a@b.com") (.str "A") (.str "p")].any
        fun r => r.cognito_user_id == Json.str "u1") = true) ∧
    (∀ r ∈ [newUserRecord "uuid-1" 0 (.str "u1") (.str "a@b.com") (.str "A") (.str "p")],
        r.id ≠ "uuid-2") ∧
    ((create_user_in_database
        [newUserRecord "uuid-1" 0 (.str "u1") (.str "a@b.com") (.str "A") (.str "p")]
        true true "" "uuid-2" 1 (.str "u1") (.str "c@d.com") (.str "B") (.str "q")).1
          = Except.ok "uuid-2" ∧
      ((create_user_in_database
        [newUserRecord "uuid-1" 0 (.str "u1") (.str "a@b.com") (.str "A") (.str "p")]
        true true "" "uuid-2" 1 (.str "u1") (.str "c@d.com") (.str "B") (.str "q")).2.1).map
          UserRecord.id
        = [newUserRecord "uuid-1" 0 (.str "u1") (.str "a@b.com") (.str "A") (.str "p")].map
            UserRecord.id ∧
      ∀ r ∈ (create_user_in_database
        [newUserRecord "uuid-1" 0 (.str "u1") (.str "a@b.com") (.str "A") (.str "p")]
        true true "" "uuid-2" 1 (.str "u1") (.str "c@d.com") (.str "B") (.str "q")).2.1,
          r.id ≠ "uuid-2") :=
  ⟨by decide, by decide,
   C1_update_returns_fresh_id
     [newUserRecord "uuid-1" 0 (.str "u1") (.str "a@b.com") (.str "A") (.str "p")]
     "uuid-2" 1 (.str "u1") (.str "c@d.com") (.str "B") (.str "q")
     (by decide) (by decide)⟩

/-- C2: for every sequence of successful reconciliations of the same
external identity, run on a table satisfying the uniqueness invariant,
exactly one row for that identity exists afterwards, and its email, name,
picture_url and updated_at are those of the most recent call. -/
theorem C2_single_row_latest_fields (cuid : Json) (db : List UserRecord)
    (calls : List ReconcileCall) (c : ReconcileCall) (hinv : DbInv db) :
    ∃ r : UserRecord,
      rowsFor (runReconciles cuid db (calls ++ [c])) cuid = [r] ∧
      r.email = c.email ∧ r.name = c.name ∧
      r.picture_url = c.picture_url ∧ r.updated_at = c.now := by
  have hrun : runReconciles cuid db (calls ++ [c])
      = executeInsert (runReconciles cuid db calls) c.user_id c.now
          cuid c.email c.name c.picture_url := by
    rw [runReconciles, List.foldl_append, List.foldl_cons, List.foldl_nil, reconcileStep_eq]
    rfl
  rw [hrun]
  exact rowsFor_executeInsert_self _ _ _ _ _ _ _
    (DbInv_runReconciles cuid calls db hinv)

/-- C2 witness: one reconciliation of identity u1 against an empty table
leaves exactly one row for u1 carrying the attributes of that call. -/
theorem C2_witness :
    DbInv [] ∧
    ∃ r : UserRecord,
      rowsFor (runReconciles (.str "u1") []
          ([] ++ [⟨.str "a@b.com", .str "A", .str "pic", "uuid-1", 5⟩])) (.str "u1") = [r] ∧
      r.email = .str "a@b.com" ∧ r.name = .str "A" ∧
      r.picture_url = .str "pic" ∧ r.updated_at = 5 :=
  have h : DbInv [] := fun c => by simp [rowsFor]
  ⟨h, C2_single_row_latest_fields (.str "u1") [] []
      ⟨.str "a@b.com", .str "A", .str "pic", "uuid-1", 5⟩ h⟩

/-- C3 (code evaluation at the failing input): an event with the accepted
triggerSource whose attribute bag has no email is rejected without any
storage call, but the HTTPException(400, "Missing required user data")
raised at line 177 is caught by the generic except Exception clause at
line 197, so the response the code actually produces is a 500 whose
detail wraps the intended 400, not the 400 the claim and the spec
state. -/
theorem C3_missing_email_evaluation (db : List UserRecord) (connOk execOk : Bool)
    (dbErrMsg uid : String) (now : Nat) :
    cognito_post_confirmation (.json (.obj
        [("triggerSource", .str "PostConfirmation_ConfirmSignUp"), ("userName", .str "u1"),
         ("request", .obj [("userAttributes", .obj [("name", .str "A")])])]))
      db connOk execOk dbErrMsg uid now
      = ⟨.error 500 "Internal server error: 400: Missing required user data",
         db, false, ⟨false, false⟩⟩ := rfl

/-- C4: whenever a row with the reconciled external identity already
exists, create_user_in_database leaves the table rows in place pairwise:
each resulting row has the same id, cognito_user_id, provider,
created_at, is_active, onboarding_completed and preferences as the row
it replaces, and a row whose identity is not the reconciled one is not
changed at all. This holds on the success path and on both failure
paths. -/
theorem C4_update_frame (db : List UserRecord) (connOk execOk : Bool)
    (dbErrMsg uid : String) (now : Nat) (cuid e n p : Json)
    (hex : (db.any fun r => r.cognito_user_id == cuid) = true) :
    List.Forall₂ (fun r2 r : UserRecord =>
        r2.id = r.id ∧ r2.cognito_user_id = r.cognito_user_id ∧
        r2.provider = r.provider ∧ r2.created_at = r.created_at ∧
        r2.is_active = r.is_active ∧ r2.onboarding_completed = r.onboarding_completed ∧
        r2.preferences = r.preferences ∧ (r.cognito_user_id ≠ cuid → r2 = r))
      ((create_user_in_database db connOk execOk dbErrMsg uid now cuid e n p).2.1) db := by
  have hsame : ∀ l : List UserRecord, List.Forall₂ (fun r2 r : UserRecord =>
      r2.id = r.id ∧ r2.cognito_user_id = r.cognito_user_id ∧
      r2.provider = r.provider ∧ r2.created_at = r.created_at ∧
      r2.is_active = r.is_active ∧ r2.onboarding_completed = r.onboarding_completed ∧
      r2.preferences = r.preferences ∧ (r.cognito_user_id ≠ cuid → r2 = r)) l l := by
    intro l
    exact List.forall₂_same.mpr fun r _ => ⟨rfl, rfl, rfl, rfl, rfl, rfl, rfl, fun _ => rfl⟩
  cases connOk with
  | false => exact hsame db
  | true =>
      cases execOk with
      | false => exact hsame db
      | true =>
          have hstep : (create_user_in_database db true true dbErrMsg uid now cuid e n p).2.1
              = db.map fun r =>
                  if r.cognito_user_id == cuid then applyUpdate e n p now r else r := by
            show executeInsert db uid now cuid e n p = _
            rw [executeInsert, if_pos hex]
          rw [hstep, List.forall₂_map_left_iff]
          refine List.forall₂_same.mpr fun r _ => ?_
          by_cases h : r.cognito_user_id = cuid
          · simp [h, applyUpdate]
          · simp [h]

/-- C4 witness: the frame theorem applied to a one-row table for identity
u1, updated with new attribute values. -/
theorem C4_witness :
    (([newUserRecord "uuid-1" 0 (.str "u1") (.str "a@b.com") (.str "A") (.str "p")].any
        fun r => r.cognito_user_id == Json.str "u1") = true) ∧
    List.Forall₂ (fun r2 r : UserRecord =>
        r2.id = r.id ∧ r2.cognito_user_id = r.cognito_user_id ∧
        r2.provider = r.provider ∧ r2.created_at = r.created_at ∧
        r2.is_active = r.is_active ∧ r2.onboarding_completed = r.onboarding_completed ∧
        r2.preferences = r.preferences ∧ (r.cognito_user_id ≠ Json.str "u1" → r2 = r))
      ((create_user_in_database
          [newUserRecord "uuid-1" 0 (.str "u1") (.str "a@b.com") (.str "A") (.str "p")]
          true true "" "uuid-2" 1 (.str "u1") (.str "c@d.com") (.str "B") (.str "q")).2.1)
      [newUserRecord "uuid-1" 0 (.str "u1") (.str "a@b.com") (.str "A") (.str "p")] :=
  ⟨by decide,
   C4_update_frame
     [newUserRecord "uuid-1" 0 (.str "u1") (.str "a@b.com") (.str "A") (.str "p")]
     true true "" "uuid-2" 1 (.str "u1") (.str "c@d.com") (.str "B") (.str "q")
     (by decide)⟩

/-- C5: a JSON object body whose triggerSource entry differs from the
configured accepted value is answered with a plain 200 whose payload is
statusCode 200 and body "Event ignored", before any attribute is
inspected and without any storage call, whatever the rest of the object
holds. -/
theorem C5_nonmatching_trigger_ignored (kvs : List (String × Json)) (db : List UserRecord)
    (connOk execOk : Bool) (dbErrMsg uid : String) (now : Nat)
    (h : jsonLookup kvs "triggerSource" ≠ some (.str TRIGGER_SOURCE)) :
    cognito_post_confirmation (.json (.obj kvs)) db connOk execOk dbErrMsg uid now
      = ⟨.ok (.obj [("statusCode", .num 200), ("body", .str "Event ignored")]),
         db, false, ⟨false, false⟩⟩ :=
  ignored_of_eqStr_false kvs db connOk execOk dbErrMsg uid now (eqStr_getD_false _ _ h)

/-- C5 witness: an event with a different trigger source and a malformed
attribute bag is still ignored with a 200. -/
theorem C5_witness :
    (jsonLookup [("triggerSource", Json.str "TokenGeneration_HostedAuth"),
        ("request", Json.str "garbage")] "triggerSource"
      ≠ some (.str TRIGGER_SOURCE)) ∧
    cognito_post_confirmation (.json (.obj
        [("triggerSource", Json.str "TokenGeneration_HostedAuth"),
         ("request", Json.str "garbage")])) [] true true "" "u" 0
      = ⟨.ok (.obj [("statusCode", .num 200), ("body", .str "Event ignored")]),
         [], false, ⟨false, false⟩⟩ :=
  ⟨by decide,
   C5_nonmatching_trigger_ignored
     [("triggerSource", Json.str "TokenGeneration_HostedAuth"),
      ("request", Json.str "garbage")] [] true true "" "u" 0 (by decide)⟩

/-- C6 (code evaluation at the failing input): when connecting itself
fails, the except block of create_user_in_database evaluates the unbound
local conn, so the request surfaces a 500 whose detail is the
UnboundLocalError text and the cause "Database connection failed" is
lost; when instead the upsert statement fails after a connection exists,
the 500 detail does carry the underlying cause. The two failure points
are therefore not handled independently as the claim states. -/
theorem C6_storage_failure_evaluation (db : List UserRecord) (uid : String) (now : Nat)
    (msg : String) :
    cognito_post_confirmation (.json (.obj sampleEventKvs)) db false true "" uid now
      = ⟨.error 500 "Internal server error: cannot access local variable \x27conn\x27 where it is not associated with a value",
         db, true, ⟨false, false⟩⟩ ∧
    cognito_post_confirmation (.json (.obj sampleEventKvs)) db true false msg uid now
      = ⟨.error 500 ("Internal server error: 500: Error creating user: " ++ msg),
         db, true, ⟨true, true⟩⟩ :=
  ⟨rfl, rfl⟩

/-- C7 counterexample: the health check acquires a connection and the
probe query then fails; the except block at line 144 returns without
closing, so the borrowed connection is not released before the request
returns, contradicting the claim for the health check. -/
theorem C7_counterexample :
    (health_check true false "connection reset by peer" 0).2.acquired = true ∧
    (health_check true false "connection reset by peer" 0).2.released = false :=
  ⟨rfl, rfl⟩

/-- C7 (amended): the reconciler releases its connection on every exit
path on which it acquired one; the health check acquires a connection
exactly when the backend accepts one but releases it only when the probe
also succeeds, so a probe failure after acquisition leaks the
connection. -/
theorem C7_connection_release :
    (∀ (db : List UserRecord) (connOk execOk : Bool) (dbErrMsg uid : String) (now : Nat)
        (cuid e n p : Json),
        (create_user_in_database db connOk execOk dbErrMsg uid now cuid e n p).2.2.released
          = (create_user_in_database db connOk execOk dbErrMsg uid now cuid e n p).2.2.acquired) ∧
    (∀ (connOk probeOk : Bool) (msg : String) (now : Nat),
        (health_check connOk probeOk msg now).2.acquired = connOk ∧
        (health_check connOk probeOk msg now).2.released = (connOk && probeOk)) := by
  constructor
  · intro db connOk execOk dbErrMsg uid now cuid e n p
    cases connOk <;> cases execOk <;> rfl
  · intro connOk probeOk msg now
    cases connOk <;> cases probeOk <;> exact ⟨rfl, rfl⟩

/-- C8 counterexample: a request body that is not valid UTF-8 does not
decode as JSON, yet the code answers 500, not 400: the UnicodeDecodeError
raised by body.decode at line 159 is not a JSONDecodeError, so the
catch-all clause at line 197 handles it. -/
theorem C8_counterexample :
    (cognito_post_confirmation
        (.invalidUtf8 "\x27utf-8\x27 codec can\x27t decode byte 0xff in position 0: invalid start byte")
        [] true true "" "u" 0).response
      ≠ HttpResponse.error 400 "Invalid JSON" ∧
    (cognito_post_confirmation
        (.invalidUtf8 "\x27utf-8\x27 codec can\x27t decode byte 0xff in position 0: invalid start byte")
        [] true true "" "u" 0).response
      = .error 500 "Internal server error: \x27utf-8\x27 codec can\x27t decode byte 0xff in position 0: invalid start byte" :=
  ⟨by decide, rfl⟩

/-- C8 (amended): a UTF-8 body that json.loads rejects is answered with
400 and detail "Invalid JSON" and the reconciler is never invoked; a body
that is not valid UTF-8 is instead answered with the 500 catch-all, also
without invoking the reconciler. -/
theorem C8_malformed_body (msgU msgJ : String) (db : List UserRecord)
    (connOk execOk : Bool) (dbErrMsg uid : String) (now : Nat) :
    cognito_post_confirmation (.invalidJson msgJ) db connOk execOk dbErrMsg uid now
      = ⟨.error 400 "Invalid JSON", db, false, ⟨false, false⟩⟩ ∧
    cognito_post_confirmation (.invalidUtf8 msgU) db connOk execOk dbErrMsg uid now
      = ⟨.error 500 ("Internal server error: " ++ msgU), db, false, ⟨false, false⟩⟩ :=
  ⟨rfl, rfl⟩

/-- C9: whatever the storage backend does, the health check returns a
plain 200 JSON object — never an exception — whose status is healthy or
unhealthy, whose database field is connected or disconnected, which
carries a timestamp, and which carries the error cause exactly on the
failure outcomes. -/
theorem C9_health_always_reports (connOk probeOk : Bool) (msg : String) (now : Nat) :
    ∃ kvs : List (String × Json),
      (health_check connOk probeOk msg now).1 = .ok (.obj kvs) ∧
      jsonLookup kvs "status"
        = some (.str (if connOk && probeOk then "healthy" else "unhealthy")) ∧
      jsonLookup kvs "database"
        = some (.str (if connOk && probeOk then "connected" else "disconnected")) ∧
      jsonLookup kvs "timestamp" = some (.num now) ∧
      jsonLookup kvs "error"
        = (if connOk then (if probeOk then none else some (.str msg))
           else some (.str "500: Database connection failed")) := by
  cases connOk <;> cases probeOk <;> exact ⟨_, rfl, rfl, rfl, rfl, rfl⟩

/-- C10: a body that is valid JSON but not an object makes the attribute
access at line 164 raise an AttributeError, which the catch-all turns
into a 500 with no storage call; and a JSON object with no triggerSource
entry at all fails only the trigger comparison and is reported as an
ignored no-op 200, again with no storage call — no structural schema
beyond the trigger comparison and the field-presence check is
enforced. -/
theorem C10_no_schema_beyond_trigger :
    (∀ (j : Json) (db : List UserRecord) (connOk execOk : Bool) (dbErrMsg uid : String)
        (now : Nat), (∀ kvs, j ≠ .obj kvs) →
        cognito_post_confirmation (.json j) db connOk execOk dbErrMsg uid now
          = ⟨.error 500 ("Internal server error: " ++ noGetAttrMsg j),
             db, false, ⟨false, false⟩⟩) ∧
    (∀ (kvs : List (String × Json)) (db : List UserRecord) (connOk execOk : Bool)
        (dbErrMsg uid : String) (now : Nat),
        jsonLookup kvs "triggerSource" = none →
        cognito_post_confirmation (.json (.obj kvs)) db connOk execOk dbErrMsg uid now
          = ⟨.ok (.obj [("statusCode", .num 200), ("body", .str "Event ignored")]),
             db, false, ⟨false, false⟩⟩) := by
  constructor
  · intro j db connOk execOk dbErrMsg uid now hj
    cases j with
    | obj kvs => exact absurd rfl (hj kvs)
    | null => rfl
    | bool b => rfl
    | num n => rfl
    | str s => rfl
    | arr xs => rfl
  · intro kvs db connOk execOk dbErrMsg uid now h
    exact ignored_of_eqStr_false kvs db connOk execOk dbErrMsg uid now (by rw [h]; rfl)

/-- C10 witness: the theorem applied to an empty JSON array body and to an
object body with a single unrelated key. -/
theorem C10_witness :
    (∀ kvs, Json.arr [] ≠ Json.obj kvs) ∧
    (cognito_post_confirmation (.json (.arr [])) [] true true "" "u" 0
      = ⟨.error 500 ("Internal server error: " ++ noGetAttrMsg (.arr [])),
         [], false, ⟨false, false⟩⟩) ∧
    (jsonLookup [("foo", Json.num 1)] "triggerSource" = none) ∧
    (cognito_post_confirmation (.json (.obj [("foo", Json.num 1)])) [] true true "" "u" 0
      = ⟨.ok (.obj [("statusCode", .num 200), ("body", .str "Event ignored")]),
         [], false, ⟨false, false⟩⟩) :=
  ⟨fun _ h => Json.noConfusion h,
   C10_no_schema_beyond_trigger.1 (.arr []) [] true true "" "u" 0
     (fun _ h => Json.noConfusion h),
   rfl,
   C10_no_schema_beyond_trigger.2 [("foo", Json.num 1)] [] true true "" "u" 0 rfl⟩
